import Mathlib

/-!
Shallow embedding of the quantum simulation engine of
`src/usecase/quantum_core_usecase.py` and the orchestration pieces of
`src/usecase/simulations_usecase.py` (validation, gate-symbol unwrapping and
algorithm selection), together with theorems settling the claims about them.

Modelling conventions:
* Python floats are modelled as real numbers (`ℝ`), Python complex numbers as
  `ℂ`; `abs(z)**2` is modelled as `Complex.normSq z`, which equals
  `Complex.abs z ^ 2` exactly over the reals.
* The two pseudo-random draws made inside the per-shot loop
  (`np.random.uniform(-0.00005, 0.00005)` and `np.random.random()`) are
  modelled as two explicit input streams `noise u : ℕ → ℝ` indexed by the shot
  number; hypotheses `|noise i| ≤ 0.00005` and `0 ≤ u i < 1` recover the
  supports of the two distributions where a claim needs them.
* A Python function that can raise is modelled with `Except`; one that cannot
  raise is a total function.
-/

namespace QSim

/-- Errors raised by the engine.  The only error actually raised in
`quantum_core_usecase.py` is the `ValueError` of `get_gate_matrix`
(`"Unsupported gate: ..."`), which the spec calls `UnsupportedGateError`. -/
inductive QuantumError where
  | unsupportedGate (symbol : String)
  deriving DecidableEq, Repr

/-- One element of the list returned by `generate_shots` /
`generate_shots_random_noise`: the dict with keys `alphaReal`, `alphaImgn`,
`betaReal`, `betaImgn`, `outputState`. -/
structure ShotRecord where
  alphaReal : ℝ
  alphaImgn : ℝ
  betaReal : ℝ
  betaImgn : ℝ
  outputState : ℕ

/-- The dict `GATE_MATRICES` of `quantum_core_usecase.py` (lines 24-30),
as a lookup function: `some` on the five keys, `none` otherwise.  The `H`
entry is `np.array([[1,1],[1,-1]])/np.sqrt(2)`, i.e. elementwise division
by `√2`. -/
noncomputable def GATE_MATRICES (g : String) : Option (Matrix (Fin 2) (Fin 2) ℂ) :=
  if g = "X" then some !![0, 1; 1, 0]
  else if g = "Y" then some !![0, -Complex.I; Complex.I, 0]
  else if g = "Z" then some !![1, 0; 0, -1]
  else if g = "H" then some !![1 / (Real.sqrt 2 : ℂ), 1 / (Real.sqrt 2 : ℂ);
                               1 / (Real.sqrt 2 : ℂ), -(1 / (Real.sqrt 2 : ℂ))]
  else if g = "I" then some !![1, 0; 0, 1]
  else none

/-- `SUPPORTED_GATES = list(GATE_MATRICES.keys())` (line 33). -/
def SUPPORTED_GATES : List String := ["X", "Y", "Z", "H", "I"]

/-- `get_gate_matrix` (lines 36-51): dict lookup, raising on a missing key. -/
noncomputable def get_gate_matrix (g : String) :
    Except QuantumError (Matrix (Fin 2) (Fin 2) ℂ) :=
  match GATE_MATRICES g with
  | some m => .ok m
  | none => .error (.unsupportedGate g)

/-- `apply_gate` (lines 54-66): `gate @ state`, the matrix-vector product. -/
noncomputable def apply_gate (state : Fin 2 → ℂ) (g : String) :
    Except QuantumError (Fin 2 → ℂ) :=
  (get_gate_matrix g).map fun gate => gate.mulVec state

/-- `build_state_vector` (lines 69-86). -/
def build_state_vector (alphaReal alphaImgn betaReal betaImgn : ℝ) : Fin 2 → ℂ :=
  ![⟨alphaReal, alphaImgn⟩, ⟨betaReal, betaImgn⟩]

/-- `is_supported_gate` (lines 213-223): membership in `SUPPORTED_GATES`. -/
def is_supported_gate (g : String) : Bool :=
  decide (g ∈ SUPPORTED_GATES)

/-- `generate_shots` (lines 89-154).  `num_shots : ℤ` because the Python
`int` argument may be non-positive, in which case `range(num_shots)` is
empty (`Int.toNat` of a non-positive integer is `0`).  The per-shot loop
body is the `map` function: one shared `variation` for the four perturbed
components, and `outputState = 0` iff the uniform draw is `< prob_zero`. -/
noncomputable def generate_shots (alpha_real alpha_imgn beta_real beta_imgn : ℝ)
    (gate_symbol : String) (num_shots : ℤ) (noise u : ℕ → ℝ) :
    Except QuantumError (List ShotRecord) :=
  match apply_gate (build_state_vector alpha_real alpha_imgn beta_real beta_imgn)
      gate_symbol with
  | .error e => .error e
  | .ok final_state =>
    let final_alpha := final_state 0
    let final_beta := final_state 1
    let prob_zero := Complex.normSq final_alpha
    .ok <| (List.range num_shots.toNat).map fun i =>
      let variation := noise i
      { alphaReal := final_alpha.re + variation
        alphaImgn := final_alpha.im + variation
        betaReal := final_beta.re + variation
        betaImgn := final_beta.im + variation
        outputState := if u i < prob_zero then 0 else 1 }

/-- `generate_shots_random_noise` (lines 157-210): no gate is applied, the
initial amplitudes are perturbed directly and `prob_zero` is recomputed per
shot from the perturbed alpha components only.  This function cannot raise. -/
noncomputable def generate_shots_random_noise
    (alpha_real alpha_imgn beta_real beta_imgn : ℝ) (num_shots : ℤ)
    (noise u : ℕ → ℝ) : List ShotRecord :=
  (List.range num_shots.toNat).map fun i =>
    let variation := noise i
    let shot_alpha_real := alpha_real + variation
    let shot_alpha_imgn := alpha_imgn + variation
    let shot_beta_real := beta_real + variation
    let shot_beta_imgn := beta_imgn + variation
    let prob_zero := shot_alpha_real ^ 2 + shot_alpha_imgn ^ 2
    { alphaReal := shot_alpha_real
      alphaImgn := shot_alpha_imgn
      betaReal := shot_beta_real
      betaImgn := shot_beta_imgn
      outputState := if u i < prob_zero then 0 else 1 }

/-- `_strip_symbol_wrapper` of `simulations_usecase.py` (lines 186-193):
strips a `|...|` wrapper, e.g. `|X| -> X`.  The Python guard is
`symbol and symbol.startswith('|') and symbol.endswith('|')`, modelled on
the character sequence of the string (first / last character is `|`), and
`symbol[1:-1]` drops the first and the last character. -/
def strip_symbol_wrapper (symbol : String) : String :=
  if symbol ≠ "" ∧ symbol.data.head? = some '|' ∧
      symbol.data.getLast? = some '|' then
    String.mk ((symbol.data.drop 1).dropLast)
  else symbol

/-- The algorithm-selection core of `generate_shots_background`
(`simulations_usecase.py` lines 305-360): the gate symbol fetched from the
database is unwrapped with `_strip_symbol_wrapper` and the engine path is
chosen by an explicit `is_supported_gate` branch; the database-loaded state
amplitudes are passed unchanged to either path.  The database fetches, the
progress-store updates and the per-shot inserts surrounding this core are
outside the embedding; the fetched values are parameters here. -/
noncomputable def generate_shots_background (gate_symbol_wrapped : String)
    (alpha_real alpha_imgn beta_real beta_imgn : ℝ) (num_shots : ℤ)
    (noise u : ℕ → ℝ) : Except QuantumError (List ShotRecord) :=
  let gate_symbol := strip_symbol_wrapper gate_symbol_wrapped
  if is_supported_gate gate_symbol then
    generate_shots alpha_real alpha_imgn beta_real beta_imgn gate_symbol
      num_shots noise u
  else
    .ok (generate_shots_random_noise alpha_real alpha_imgn beta_real beta_imgn
      num_shots noise u)

/-- A request-body value as seen by `_validate_simulation_data`: Python
`None`, an `int`, or a `str`. -/
inductive PyVal where
  | none
  | int (n : ℤ)
  | str (s : String)
  deriving DecidableEq, Repr

/-- Python truthiness of a `PyVal` (the `if not state_id` test): `None`,
`0` and `""` are falsy. -/
def pyTruthy : PyVal → Bool
  | .none => false
  | .int n => decide (n ≠ 0)
  | .str s => decide (s ≠ "")

/-- Python `int(...)` on a `PyVal`: `None` raises `TypeError`, an `int` is
returned unchanged, and a `str` is parsed as a decimal integer
(raising `ValueError` on failure), modelled with `String.toInt?`. -/
def pyInt : PyVal → Option ℤ
  | .none => Option.none
  | .int n => Option.some n
  | .str s => s.toInt?

/-- `_validate_simulation_data` (`simulations_usecase.py` lines 120-164),
restricted to its `(is_valid, error_message)` components (the third
component, `recommended_values`, is always `{}`).  The checks run in source
order: truthiness then `int(...)` for `stateID` and `gateID`; `is None`,
`int(...)` and the range check `5 <= numShots <= 100` for `numShots`. -/
def validate_simulation_data (stateID gateID numShots : PyVal) : Bool × String :=
  if pyTruthy stateID = false then (false, "Initial state is required")
  else if (pyInt stateID).isNone then (false, "State ID must be a valid number")
  else if pyTruthy gateID = false then (false, "Gate is required")
  else if (pyInt gateID).isNone then (false, "Gate ID must be a valid number")
  else if numShots = PyVal.none then (false, "Number of shots is required")
  else
    match pyInt numShots with
    | Option.none => (false, "Number of shots must be a valid number")
    | Option.some n =>
      if n < 5 ∨ n > 100 then
        (false, "Number of shots must be between 5 and 100")
      else (true, "")

/-- The shot count with which the engine is invoked through `add_async`:
`post_simulations` (`main.py` lines 258-286) schedules
`generate_shots_background` only when `add_async` returned `202`, which
requires `_validate_simulation_data` to have succeeded; the background task
then recomputes `num_shots = int(data["numShots"])`.  `Option.none` means
the request was rejected before any shot generation started. -/
def add_async_shot_count (stateID gateID numShots : PyVal) : Option ℤ :=
  if (validate_simulation_data stateID gateID numShots).1 then pyInt numShots
  else Option.none

/-- Modelled from the spec (§4.1): the textbook gate matrices as the spec
writes them, with `H = (1/√2)·[[1,1],[1,-1]]` given as a scalar multiple.
Symbols outside the five-gate set are mapped to `0` (the spec assigns them
no matrix); the theorems only use the five supported symbols. -/
noncomputable def textbookMatrix (g : String) : Matrix (Fin 2) (Fin 2) ℂ :=
  if g = "X" then !![0, 1; 1, 0]
  else if g = "Y" then !![0, -Complex.I; Complex.I, 0]
  else if g = "Z" then !![1, 0; 0, -1]
  else if g = "H" then ((Real.sqrt 2 : ℂ))⁻¹ • !![1, 1; 1, -1]
  else if g = "I" then !![1, 0; 0, 1]
  else 0

/-! ### Helper lemmas -/

lemma supported_cases (g : String) (h : is_supported_gate g = true) :
    g = "X" ∨ g = "Y" ∨ g = "Z" ∨ g = "H" ∨ g = "I" := by
  simpa [is_supported_gate, SUPPORTED_GATES] using h

lemma sqrt_two_sq_complex : (Real.sqrt 2 : ℂ) * (Real.sqrt 2 : ℂ) = 2 := by
  rw [← Complex.ofReal_mul, Real.mul_self_sqrt (by norm_num)]
  norm_num

lemma inv_sqrt_two_mul :
    ((Real.sqrt 2 : ℂ))⁻¹ * ((Real.sqrt 2 : ℂ))⁻¹ = 2⁻¹ := by
  rw [← mul_inv, sqrt_two_sq_complex]

lemma normSq_sqrt_two : Complex.normSq (Real.sqrt 2 : ℂ) = 2 := by
  rw [Complex.normSq_ofReal, Real.mul_self_sqrt (by norm_num)]

lemma mulVec_two (m : Matrix (Fin 2) (Fin 2) ℂ) (v : Fin 2 → ℂ) :
    m.mulVec v = ![m 0 0 * v 0 + m 0 1 * v 1, m 1 0 * v 0 + m 1 1 * v 1] := by
  funext i
  fin_cases i <;> simp [Matrix.mulVec, Matrix.dotProduct, Fin.sum_univ_two]

lemma apply_gate_X (s : Fin 2 → ℂ) : apply_gate s "X" = .ok ![s 1, s 0] := by
  show Except.ok ((!![0, 1; 1, 0] : Matrix (Fin 2) (Fin 2) ℂ).mulVec s) = _
  refine congrArg Except.ok ?_
  rw [mulVec_two]
  funext i
  fin_cases i <;> simp

lemma apply_gate_Y (s : Fin 2 → ℂ) :
    apply_gate s "Y" = .ok ![-Complex.I * s 1, Complex.I * s 0] := by
  show Except.ok ((!![0, -Complex.I; Complex.I, 0] :
      Matrix (Fin 2) (Fin 2) ℂ).mulVec s) = _
  refine congrArg Except.ok ?_
  rw [mulVec_two]
  funext i
  fin_cases i <;> simp

lemma apply_gate_Z (s : Fin 2 → ℂ) : apply_gate s "Z" = .ok ![s 0, -(s 1)] := by
  show Except.ok ((!![1, 0; 0, -1] : Matrix (Fin 2) (Fin 2) ℂ).mulVec s) = _
  refine congrArg Except.ok ?_
  rw [mulVec_two]
  funext i
  fin_cases i <;> simp

lemma apply_gate_H (s : Fin 2 → ℂ) :
    apply_gate s "H" =
      .ok ![(s 0 + s 1) / (Real.sqrt 2 : ℂ), (s 0 - s 1) / (Real.sqrt 2 : ℂ)] := by
  show Except.ok ((!![1 / (Real.sqrt 2 : ℂ), 1 / (Real.sqrt 2 : ℂ);
      1 / (Real.sqrt 2 : ℂ), -(1 / (Real.sqrt 2 : ℂ))] :
      Matrix (Fin 2) (Fin 2) ℂ).mulVec s) = _
  refine congrArg Except.ok ?_
  rw [mulVec_two]
  funext i
  fin_cases i <;> simp <;> ring

lemma apply_gate_I (s : Fin 2 → ℂ) : apply_gate s "I" = .ok ![s 0, s 1] := by
  show Except.ok ((!![1, 0; 0, 1] : Matrix (Fin 2) (Fin 2) ℂ).mulVec s) = _
  refine congrArg Except.ok ?_
  rw [mulVec_two]
  funext i
  fin_cases i <;> simp

lemma source_H_eq_textbook :
    (!![1 / (Real.sqrt 2 : ℂ), 1 / (Real.sqrt 2 : ℂ);
        1 / (Real.sqrt 2 : ℂ), -(1 / (Real.sqrt 2 : ℂ))] :
      Matrix (Fin 2) (Fin 2) ℂ) = ((Real.sqrt 2 : ℂ))⁻¹ • !![1, 1; 1, -1] := by
  ext i j
  fin_cases i <;> fin_cases j <;>
    simp [Matrix.smul_apply, smul_eq_mul, one_div]

lemma build_state_vector_one_zero : build_state_vector 1 0 0 0 = ![1, 0] := by
  funext i
  fin_cases i <;> simp [build_state_vector, Complex.ext_iff]

lemma not_supported_gate_matrices (g : String) (h : g ∉ SUPPORTED_GATES) :
    GATE_MATRICES g = none := by
  simp only [SUPPORTED_GATES, List.mem_cons, List.not_mem_nil, or_false,
    not_or] at h
  obtain ⟨h1, h2, h3, h4, h5⟩ := h
  simp [GATE_MATRICES, h1, h2, h3, h4, h5]

lemma apply_gate_ok_of_supported (g : String) (s : Fin 2 → ℂ)
    (h : is_supported_gate g = true) : ∃ fs, apply_gate s g = Except.ok fs := by
  rcases supported_cases g h with rfl | rfl | rfl | rfl | rfl
  · exact ⟨_, apply_gate_X s⟩
  · exact ⟨_, apply_gate_Y s⟩
  · exact ⟨_, apply_gate_Z s⟩
  · exact ⟨_, apply_gate_H s⟩
  · exact ⟨_, apply_gate_I s⟩

lemma generate_shots_eq (a b c d : ℝ) (g : String) (n : ℤ) (noise u : ℕ → ℝ)
    (fs : Fin 2 → ℂ)
    (hfs : apply_gate (build_state_vector a b c d) g = .ok fs) :
    generate_shots a b c d g n noise u =
      .ok ((List.range n.toNat).map fun i =>
        { alphaReal := (fs 0).re + noise i
          alphaImgn := (fs 0).im + noise i
          betaReal := (fs 1).re + noise i
          betaImgn := (fs 1).im + noise i
          outputState := if u i < Complex.normSq (fs 0) then 0 else 1 }) := by
  simp [generate_shots, hfs]

lemma generate_shots_error (a b c d : ℝ) (g : String) (n : ℤ) (noise u : ℕ → ℝ)
    (e : QuantumError)
    (hfs : apply_gate (build_state_vector a b c d) g = .error e) :
    generate_shots a b c d g n noise u = .error e := by
  simp [generate_shots, hfs]

/-! ### Claims -/

/-- C3: for every supported gate symbol in `{X, Y, Z, H, I}` and every state
vector, `apply_gate` returns exactly the complex matrix-vector product of the
fixed textbook matrix (as the spec lists it in §4.1) with the state; in
particular `H` on the basis state `(α,β) = (1,0)` yields `(1/√2, 1/√2)`. -/
theorem C3_apply_gate_is_matrix_vector (g : String) (s : Fin 2 → ℂ)
    (h : is_supported_gate g = true) :
    apply_gate s g = Except.ok ((textbookMatrix g).mulVec s) ∧
    apply_gate (build_state_vector 1 0 0 0) "H" =
      Except.ok ![(1 / Real.sqrt 2 : ℂ), (1 / Real.sqrt 2 : ℂ)] := by
  constructor
  · rcases supported_cases g h with rfl | rfl | rfl | rfl | rfl
    · rfl
    · rfl
    · rfl
    · show Except.ok ((!![1 / (Real.sqrt 2 : ℂ), 1 / (Real.sqrt 2 : ℂ);
          1 / (Real.sqrt 2 : ℂ), -(1 / (Real.sqrt 2 : ℂ))] :
          Matrix (Fin 2) (Fin 2) ℂ).mulVec s) = _
      rw [source_H_eq_textbook]
      rfl
    · rfl
  · rw [build_state_vector_one_zero, apply_gate_H]
    refine congrArg Except.ok ?_
    funext i
    fin_cases i <;> norm_num

/-- Witness for C3 at `g = "I"`, `s = ![1, 0]`. -/
theorem C3_witness :
    is_supported_gate "I" = true ∧
    (apply_gate ![1, 0] "I" = Except.ok ((textbookMatrix "I").mulVec ![1, 0]) ∧
     apply_gate (build_state_vector 1 0 0 0) "H" =
       Except.ok ![(1 / Real.sqrt 2 : ℂ), (1 / Real.sqrt 2 : ℂ)]) :=
  ⟨rfl, C3_apply_gate_is_matrix_vector "I" ![1, 0] rfl⟩

/-- C9: every one of the five gate matrices is unitary, and for every
supported gate symbol and every normalized state (`|α|² + |β|² = 1`) the
state `(α_f, β_f)` returned by `apply_gate` satisfies `|α_f|² + |β_f|² = 1`,
so `p0 = |α_f|²` and `p1 = 1 - p0 = |β_f|²` together exhaust the
probability. -/
theorem C9_gate_matrices_unitary (g : String) (s : Fin 2 → ℂ)
    (hg : is_supported_gate g = true)
    (hnorm : Complex.abs (s 0) ^ 2 + Complex.abs (s 1) ^ 2 = 1) :
    (∃ m, GATE_MATRICES g = some m ∧ m.conjTranspose * m = 1) ∧
    ∃ fs, apply_gate s g = Except.ok fs ∧
      Complex.abs (fs 0) ^ 2 + Complex.abs (fs 1) ^ 2 = 1 ∧
      1 - Complex.abs (fs 0) ^ 2 = Complex.abs (fs 1) ^ 2 := by
  constructor
  · rcases supported_cases g hg with rfl | rfl | rfl | rfl | rfl <;>
      refine ⟨_, rfl, ?_⟩ <;>
      · ext i j
        fin_cases i <;> fin_cases j <;>
          simp [Matrix.mul_apply, Fin.sum_univ_two, Matrix.conjTranspose_apply,
            Complex.star_def, Complex.conj_I, map_div₀, Complex.conj_ofReal,
            Matrix.one_apply] <;>
          norm_num [inv_sqrt_two_mul]
  · simp only [Complex.sq_abs] at hnorm ⊢
    rcases supported_cases g hg with rfl | rfl | rfl | rfl | rfl
    · refine ⟨![s 1, s 0], apply_gate_X s, ?_⟩
      simp only [Matrix.cons_val_zero, Matrix.cons_val_one, Matrix.head_cons]
      constructor <;> linarith
    · refine ⟨![-Complex.I * s 1, Complex.I * s 0], apply_gate_Y s, ?_⟩
      simp only [Matrix.cons_val_zero, Matrix.cons_val_one, Matrix.head_cons,
        Complex.normSq_mul, Complex.normSq_neg, Complex.normSq_I, one_mul]
      constructor <;> linarith
    · refine ⟨![s 0, -(s 1)], apply_gate_Z s, ?_⟩
      simp only [Matrix.cons_val_zero, Matrix.cons_val_one, Matrix.head_cons,
        Complex.normSq_neg]
      constructor <;> linarith
    · refine ⟨![(s 0 + s 1) / (Real.sqrt 2 : ℂ), (s 0 - s 1) / (Real.sqrt 2 : ℂ)],
        apply_gate_H s, ?_⟩
      simp only [Matrix.cons_val_zero, Matrix.cons_val_one, Matrix.head_cons,
        Complex.normSq_div, normSq_sqrt_two, Complex.normSq_add, Complex.normSq_sub]
      constructor <;> linarith
    · refine ⟨![s 0, s 1], apply_gate_I s, ?_⟩
      simp only [Matrix.cons_val_zero, Matrix.cons_val_one, Matrix.head_cons]
      constructor <;> linarith

/-- Witness for C9 at `g = "X"`, `s = ![1, 0]`. -/
theorem C9_witness :
    is_supported_gate "X" = true ∧
    Complex.abs ((![1, 0] : Fin 2 → ℂ) 0) ^ 2 +
      Complex.abs ((![1, 0] : Fin 2 → ℂ) 1) ^ 2 = 1 ∧
    ((∃ m, GATE_MATRICES "X" = some m ∧ m.conjTranspose * m = 1) ∧
     ∃ fs, apply_gate ![1, 0] "X" = Except.ok fs ∧
       Complex.abs (fs 0) ^ 2 + Complex.abs (fs 1) ^ 2 = 1 ∧
       1 - Complex.abs (fs 0) ^ 2 = Complex.abs (fs 1) ^ 2) :=
  ⟨rfl, by norm_num,
   C9_gate_matrices_unitary "X" ![1, 0] rfl (by norm_num)⟩

/-- C7: for every symbol not in `{X, Y, Z, H, I}`, `is_supported_gate`
returns `false` without failing, and `get_gate_matrix`, `apply_gate` and
`generate_shots` all fail with the unsupported-gate error; for every symbol
in that set they do not fail. -/
theorem C7_unsupported_symbols (g : String) (s : Fin 2 → ℂ)
    (a b c d : ℝ) (n : ℤ) (noise u : ℕ → ℝ)
    (h : g ∉ ["X", "Y", "Z", "H", "I"]) :
    is_supported_gate g = false ∧
    get_gate_matrix g = Except.error (.unsupportedGate g) ∧
    apply_gate s g = Except.error (.unsupportedGate g) ∧
    generate_shots a b c d g n noise u = Except.error (.unsupportedGate g) ∧
    ∀ g' ∈ SUPPORTED_GATES, is_supported_gate g' = true ∧
      (get_gate_matrix g').isOk = true ∧ (apply_gate s g').isOk = true ∧
      (generate_shots a b c d g' n noise u).isOk = true := by
  have hmem : g ∉ SUPPORTED_GATES := h
  have hmat : GATE_MATRICES g = none := not_supported_gate_matrices g hmem
  have hget : get_gate_matrix g = Except.error (.unsupportedGate g) := by
    simp [get_gate_matrix, hmat]
  have happ : apply_gate s g = Except.error (.unsupportedGate g) := by
    simp [apply_gate, hget, Except.map]
  have happ' : apply_gate (build_state_vector a b c d) g =
      Except.error (.unsupportedGate g) := by
    simp [apply_gate, hget, Except.map]
  refine ⟨by simpa [is_supported_gate] using hmem, hget, happ,
    generate_shots_error a b c d g n noise u _ happ', ?_⟩
  intro g' hg'
  have hsup : is_supported_gate g' = true := by
    simpa [is_supported_gate] using hg'
  obtain ⟨fs, hfs⟩ := apply_gate_ok_of_supported g' s hsup
  obtain ⟨fs', hfs'⟩ :=
    apply_gate_ok_of_supported g' (build_state_vector a b c d) hsup
  have hgen := generate_shots_eq a b c d g' n noise u fs' hfs'
  have hmat' : (GATE_MATRICES g').isSome = true := by
    rcases supported_cases g' hsup with rfl | rfl | rfl | rfl | rfl <;> rfl
  refine ⟨hsup, ?_, ?_, ?_⟩
  · rcases hm : GATE_MATRICES g' with _ | m
    · rw [hm] at hmat'
      simp at hmat'
    · simp [get_gate_matrix, hm, Except.isOk, Except.toBool]
  · simp [hfs, Except.isOk, Except.toBool]
  · simp [hgen, Except.isOk, Except.toBool]

/-- Witness for C7 at `g = "Q"`. -/
theorem C7_witness :
    ("Q" ∉ ["X", "Y", "Z", "H", "I"] : Prop) ∧
    (is_supported_gate "Q" = false ∧
     get_gate_matrix "Q" = Except.error (.unsupportedGate "Q") ∧
     apply_gate ![1, 0] "Q" = Except.error (.unsupportedGate "Q") ∧
     generate_shots 1 0 0 0 "Q" 5 (fun _ => 0) (fun _ => 0) =
       Except.error (.unsupportedGate "Q") ∧
     ∀ g' ∈ SUPPORTED_GATES, is_supported_gate g' = true ∧
       (get_gate_matrix g').isOk = true ∧ (apply_gate ![1, 0] g').isOk = true ∧
       (generate_shots 1 0 0 0 g' 5 (fun _ => 0) (fun _ => 0)).isOk = true) :=
  ⟨by decide,
   C7_unsupported_symbols "Q" ![1, 0] 1 0 0 0 5 (fun _ => 0) (fun _ => 0)
     (by decide)⟩

/-- C1 counterexample: at `num_shots = 0` neither engine operation fails —
`generate_shots` (with supported gate `X`) returns `Except.ok []` and
`generate_shots_random_noise` returns `[]`, so neither raises an
`InvalidArgumentError` (no such error exists anywhere in the engine). -/
theorem C1_counterexample :
    generate_shots 1 0 0 0 "X" 0 (fun _ => 0) (fun _ => 0) = Except.ok [] ∧
    (generate_shots 1 0 0 0 "X" 0 (fun _ => 0) (fun _ => 0)).isOk = true ∧
    generate_shots_random_noise 1 0 0 0 0 (fun _ => 0) (fun _ => 0) = [] := by
  have h := generate_shots_eq 1 0 0 0 "X" 0 (fun _ => 0) (fun _ => 0) _
    (apply_gate_X (build_state_vector 1 0 0 0))
  simp only [Int.toNat_zero, List.range_zero, List.map_nil] at h
  exact ⟨h, by simp [h, Except.isOk, Except.toBool],
    by simp [generate_shots_random_noise]⟩

/-- C1 amended: for every initial state and every `num_shots <= 0`, both
`generate_shots` (with any supported gate symbol) and
`generate_shots_random_noise` return an empty shot list rather than failing:
the engine performs no shot-count validation (`range(num_shots)` is empty),
and non-positive counts are screened out upstream by the orchestration
layer's 5-to-100 validation. -/
theorem C1_amended_nonpositive_shots (a b c d : ℝ) (g : String) (n : ℤ)
    (noise u : ℕ → ℝ) (hg : is_supported_gate g = true) (hn : n ≤ 0) :
    generate_shots a b c d g n noise u = Except.ok [] ∧
    generate_shots_random_noise a b c d n noise u = [] := by
  have hn' : n.toNat = 0 := Int.toNat_of_nonpos hn
  obtain ⟨fs, hfs⟩ :=
    apply_gate_ok_of_supported g (build_state_vector a b c d) hg
  have h := generate_shots_eq a b c d g n noise u fs hfs
  rw [hn'] at h
  simp only [List.range_zero, List.map_nil] at h
  refine ⟨h, ?_⟩
  simp [generate_shots_random_noise, hn']

/-- Witness for C1 amended at `g = "X"`, `n = -3`. -/
theorem C1_amended_witness :
    is_supported_gate "X" = true ∧ (-3 : ℤ) ≤ 0 ∧
    (generate_shots 1 0 0 0 "X" (-3) (fun _ => 0) (fun _ => 0) = Except.ok [] ∧
     generate_shots_random_noise 1 0 0 0 (-3) (fun _ => 0) (fun _ => 0) = []) :=
  ⟨rfl, by norm_num,
   C1_amended_nonpositive_shots 1 0 0 0 "X" (-3) (fun _ => 0) (fun _ => 0)
     rfl (by norm_num)⟩

/-- C2 counterexample: with `alpha_real = alpha_imgn = 0`, the per-shot
probability is recomputed from the *perturbed* alpha components, so with the
legal draws `variation = 0.00004` (inside `Uniform(-0.00005, 0.00005)`) and
`u = 0` (inside `[0,1)`) the probability is `2·0.00004² > 0` and the shot
comes out as `outputState = 0`, refuting "p0 is 0 and every record has
`outputState = 1` for every sequence of random draws". -/
theorem C2_counterexample :
    |(0.00004 : ℝ)| ≤ 0.00005 ∧ ((0 : ℝ) ≤ 0 ∧ (0 : ℝ) < 1) ∧
    (generate_shots_random_noise 0 0 1 0 1 (fun _ => 0.00004)
      (fun _ => 0)).map (fun r => r.outputState) = [0] := by
  refine ⟨by rw [abs_le]; constructor <;> norm_num, ⟨le_refl 0, by norm_num⟩, ?_⟩
  norm_num [generate_shots_random_noise]

/-- C2 amended: with `alpha_real = alpha_imgn = 0` the noise-only path's
per-shot probability is `(0+noise)² + (0+noise)² = 2·noise²`, which is at
most `5e-9` for draws inside `Uniform(-0.00005, 0.00005)` but not exactly 0;
every returned record has `outputState = 1` provided each outcome draw is at
least the per-shot probability (draws below it yield `outputState = 0`). -/
theorem C2_amended_degenerate_alpha (c d : ℝ) (n : ℤ) (noise u : ℕ → ℝ)
    (hnoise : ∀ i, |noise i| ≤ 0.00005)
    (hu : ∀ i, 2 * noise i ^ 2 ≤ u i) :
    (∀ i, ((0 : ℝ) + noise i) ^ 2 + ((0 : ℝ) + noise i) ^ 2 ≤ 0.000000005) ∧
    ∀ r ∈ generate_shots_random_noise 0 0 c d n noise u, r.outputState = 1 := by
  constructor
  · intro i
    have h := abs_le.mp (hnoise i)
    nlinarith [h.1, h.2]
  · intro r hr
    simp only [generate_shots_random_noise, List.mem_map, List.mem_range] at hr
    obtain ⟨i, hi, rfl⟩ := hr
    have hle : ((0 : ℝ) + noise i) ^ 2 + ((0 : ℝ) + noise i) ^ 2 ≤ u i := by
      have := hu i
      nlinarith
    simp only
    rw [if_neg (not_lt.mpr hle)]

/-- Witness for C2 amended at `c = 1`, `d = 0`, `n = 1`, zero draws. -/
theorem C2_amended_witness :
    (∀ i : ℕ, |(0 : ℝ)| ≤ 0.00005) ∧ (∀ i : ℕ, 2 * (0 : ℝ) ^ 2 ≤ 0) ∧
    ((∀ i : ℕ, ((0 : ℝ) + 0) ^ 2 + ((0 : ℝ) + 0) ^ 2 ≤ 0.000000005) ∧
     ∀ r ∈ generate_shots_random_noise 0 0 1 0 1 (fun _ => 0) (fun _ => 0),
       r.outputState = 1) :=
  ⟨fun _ => by norm_num, fun _ => by norm_num,
   C2_amended_degenerate_alpha 1 0 1 (fun _ => 0) (fun _ => 0)
     (fun _ => by norm_num) (fun _ => by norm_num)⟩

/-- C6: in `generate_shots_random_noise` the probability of outcome 0 is
recomputed per shot as `p0 = (alpha_real+noise)² + (alpha_imgn+noise)²` from
the perturbed alpha components only, and the `outputState` sequence does not
depend on the beta inputs: two calls differing only in `beta_real` and
`beta_imgn` but using identical random draws produce identical `outputState`
sequences. -/
theorem C6_output_state_ignores_beta (a b c d cBeta dBeta : ℝ) (n : ℤ)
    (noise u : ℕ → ℝ) :
    (generate_shots_random_noise a b c d n noise u).map
        (fun r => r.outputState) =
      (List.range n.toNat).map (fun i =>
        if u i < (a + noise i) ^ 2 + (b + noise i) ^ 2 then 0 else 1) ∧
    (generate_shots_random_noise a b c d n noise u).map
        (fun r => r.outputState) =
      (generate_shots_random_noise a b cBeta dBeta n noise u).map
        (fun r => r.outputState) := by
  constructor <;> simp [generate_shots_random_noise, List.map_map, Function.comp]

/-- C4: the orchestrating layer's shot generation selects the algorithm by an
explicit branch: if `is_supported_gate` holds for the unwrapped gate symbol
it invokes `generate_shots` with that symbol, otherwise it invokes
`generate_shots_random_noise` on the unchanged initial amplitudes. -/
theorem C4_selection_rule (w : String) (a b c d : ℝ) (n : ℤ)
    (noise u : ℕ → ℝ) :
    (is_supported_gate (strip_symbol_wrapper w) = true →
      generate_shots_background w a b c d n noise u =
        generate_shots a b c d (strip_symbol_wrapper w) n noise u) ∧
    (is_supported_gate (strip_symbol_wrapper w) = false →
      generate_shots_background w a b c d n noise u =
        Except.ok (generate_shots_random_noise a b c d n noise u)) := by
  constructor <;> intro h <;> simp [generate_shots_background, h]

/-- Witness for C4 at the wrapped symbols `|X|` (supported) and `|Q|`
(unsupported). -/
theorem C4_witness :
    (is_supported_gate (strip_symbol_wrapper "|X|") = true ∧
     generate_shots_background "|X|" 1 0 0 0 5 (fun _ => 0) (fun _ => 0) =
       generate_shots 1 0 0 0 (strip_symbol_wrapper "|X|") 5 (fun _ => 0)
         (fun _ => 0)) ∧
    (is_supported_gate (strip_symbol_wrapper "|Q|") = false ∧
     generate_shots_background "|Q|" 1 0 0 0 5 (fun _ => 0) (fun _ => 0) =
       Except.ok (generate_shots_random_noise 1 0 0 0 5 (fun _ => 0)
         (fun _ => 0))) :=
  ⟨⟨by decide,
    (C4_selection_rule "|X|" 1 0 0 0 5 (fun _ => 0) (fun _ => 0)).1
      (by decide)⟩,
   ⟨by decide,
    (C4_selection_rule "|Q|" 1 0 0 0 5 (fun _ => 0) (fun _ => 0)).2
      (by decide)⟩⟩

/-- C5: for every normalized initial state, supported gate symbol and
`num_shots = n > 0`, `generate_shots` returns an ordered list of exactly `n`
records in which every record's `outputState` is 0 or 1 and each of the four
perturbed amplitude components differs from the corresponding exact
post-gate amplitude component by at most `0.00005` in absolute value (the
noise draws lie in the support of `Uniform(-0.00005, 0.00005)`). -/
theorem C5_generate_shots_records (a b c d : ℝ) (g : String) (n : ℤ)
    (noise u : ℕ → ℝ) (hnorm : a ^ 2 + b ^ 2 + c ^ 2 + d ^ 2 = 1)
    (hg : is_supported_gate g = true) (hn : 0 < n)
    (hnoise : ∀ i, |noise i| ≤ 0.00005) :
    ∃ fs shots,
      apply_gate (build_state_vector a b c d) g = Except.ok fs ∧
      generate_shots a b c d g n noise u = Except.ok shots ∧
      (shots.length : ℤ) = n ∧
      ∀ r ∈ shots,
        (r.outputState = 0 ∨ r.outputState = 1) ∧
        |r.alphaReal - (fs 0).re| ≤ 0.00005 ∧
        |r.alphaImgn - (fs 0).im| ≤ 0.00005 ∧
        |r.betaReal - (fs 1).re| ≤ 0.00005 ∧
        |r.betaImgn - (fs 1).im| ≤ 0.00005 := by
  obtain ⟨fs, hfs⟩ :=
    apply_gate_ok_of_supported g (build_state_vector a b c d) hg
  refine ⟨fs, _, hfs, generate_shots_eq a b c d g n noise u fs hfs, ?_, ?_⟩
  · simp [Int.toNat_of_nonneg hn.le]
  · intro r hr
    simp only [List.mem_map, List.mem_range] at hr
    obtain ⟨i, hi, rfl⟩ := hr
    refine ⟨?_, ?_, ?_, ?_, ?_⟩
    · by_cases hcond : u i < Complex.normSq (fs 0)
      · exact Or.inl (by simp [hcond])
      · exact Or.inr (by simp [hcond])
    all_goals
      simp only [add_sub_cancel_left]
      exact hnoise i

/-- Witness for C5 at the state `(1,0,0,0)`, gate `X`, `n = 2`, zero
draws. -/
theorem C5_witness :
    ((1 : ℝ) ^ 2 + 0 ^ 2 + 0 ^ 2 + 0 ^ 2 = 1) ∧
    is_supported_gate "X" = true ∧ (0 : ℤ) < 2 ∧
    (∀ i : ℕ, |(fun _ : ℕ => (0 : ℝ)) i| ≤ 0.00005) ∧
    (∃ fs shots,
      apply_gate (build_state_vector 1 0 0 0) "X" = Except.ok fs ∧
      generate_shots 1 0 0 0 "X" 2 (fun _ => 0) (fun _ => 0) =
        Except.ok shots ∧
      (shots.length : ℤ) = 2 ∧
      ∀ r ∈ shots,
        (r.outputState = 0 ∨ r.outputState = 1) ∧
        |r.alphaReal - (fs 0).re| ≤ 0.00005 ∧
        |r.alphaImgn - (fs 0).im| ≤ 0.00005 ∧
        |r.betaReal - (fs 1).re| ≤ 0.00005 ∧
        |r.betaImgn - (fs 1).im| ≤ 0.00005) :=
  ⟨by norm_num, rfl, by norm_num, fun _ => by norm_num,
   C5_generate_shots_records 1 0 0 0 "X" 2 (fun _ => 0) (fun _ => 0)
     (by norm_num) rfl (by norm_num) (fun _ => by norm_num)⟩

/-- C8: within each single shot record of `generate_shots`, one noise scalar
is shared by all four perturbed components: the four differences between the
perturbed components and the exact post-gate components are all equal to the
same per-shot draw `noise i`, rather than four independent draws. -/
theorem C8_shared_noise_scalar (a b c d : ℝ) (g : String) (n : ℤ)
    (noise u : ℕ → ℝ) (fs : Fin 2 → ℂ) (shots : List ShotRecord)
    (hfs : apply_gate (build_state_vector a b c d) g = Except.ok fs)
    (hsh : generate_shots a b c d g n noise u = Except.ok shots) :
    ∀ i, ∀ hi : i < shots.length,
      shots[i].alphaReal - (fs 0).re = noise i ∧
      shots[i].alphaImgn - (fs 0).im = noise i ∧
      shots[i].betaReal - (fs 1).re = noise i ∧
      shots[i].betaImgn - (fs 1).im = noise i := by
  rw [generate_shots_eq a b c d g n noise u fs hfs] at hsh
  injection hsh with hsh
  subst hsh
  intro i hi
  refine ⟨?_, ?_, ?_, ?_⟩ <;>
    simp [List.getElem_map, List.getElem_range, add_sub_cancel_left]

/-- Witness for C8 at the state `(1,0,0,0)`, gate `X`, `n = 1`, zero
draws. -/
theorem C8_witness :
    apply_gate (build_state_vector 1 0 0 0) "X" = Except.ok ![0, 1] ∧
    generate_shots 1 0 0 0 "X" 1 (fun _ => 0) (fun _ => 0) =
      Except.ok [ShotRecord.mk 0 0 1 0 1] ∧
    ∀ i, ∀ hi : i < [ShotRecord.mk 0 0 1 0 1].length,
      [ShotRecord.mk 0 0 1 0 1][i].alphaReal -
        ((![0, 1] : Fin 2 → ℂ) 0).re = 0 ∧
      [ShotRecord.mk 0 0 1 0 1][i].alphaImgn -
        ((![0, 1] : Fin 2 → ℂ) 0).im = 0 ∧
      [ShotRecord.mk 0 0 1 0 1][i].betaReal -
        ((![0, 1] : Fin 2 → ℂ) 1).re = 0 ∧
      [ShotRecord.mk 0 0 1 0 1][i].betaImgn -
        ((![0, 1] : Fin 2 → ℂ) 1).im = 0 := by
  have hfs : apply_gate (build_state_vector 1 0 0 0) "X" =
      Except.ok ![0, 1] := by
    rw [build_state_vector_one_zero, apply_gate_X]
    refine congrArg Except.ok ?_
    funext i
    fin_cases i <;> norm_num
  have hsh : generate_shots 1 0 0 0 "X" 1 (fun _ => 0) (fun _ => 0) =
      Except.ok [ShotRecord.mk 0 0 1 0 1] := by
    rw [generate_shots_eq 1 0 0 0 "X" 1 (fun _ => 0) (fun _ => 0) ![0, 1] hfs]
    norm_num [List.range_succ]
  exact ⟨hfs, hsh,
    C8_shared_noise_scalar 1 0 0 0 "X" 1 (fun _ => 0) (fun _ => 0) ![0, 1] _
      hfs hsh⟩

lemma validate_true_shot_range (s g ns : PyVal)
    (h : (validate_simulation_data s g ns).1 = true) :
    ∃ n, pyInt ns = some n ∧ 5 ≤ n ∧ n ≤ 100 := by
  unfold validate_simulation_data at h
  split at h
  · simp at h
  split at h
  · simp at h
  split at h
  · simp at h
  split at h
  · simp at h
  split at h
  · simp at h
  rcases hp : pyInt ns with _ | n
  · rw [hp] at h
    dsimp only at h
    simp at h
  · rw [hp] at h
    dsimp only at h
    split at h
    · simp at h
    · rename_i hcond
      exact ⟨n, rfl, by omega, by omega⟩

/-- C10: the orchestration layer's simulation validation accepts a
`numShots` value only when it converts to an integer `n` with
`5 <= n <= 100`; every other value is rejected with a validation error
before any shot generation starts, so the engine is never invoked through
`add_async` with a shot count outside `[5, 100]`. -/
theorem C10_shot_count_bounds (s g ns : PyVal) :
    ((validate_simulation_data s g ns).1 = true →
      ∃ n, pyInt ns = some n ∧ 5 ≤ n ∧ n ≤ 100) ∧
    ((validate_simulation_data s g ns).1 = false →
      add_async_shot_count s g ns = Option.none) ∧
    ∀ n : ℤ, add_async_shot_count s g ns = some n → 5 ≤ n ∧ n ≤ 100 := by
  refine ⟨validate_true_shot_range s g ns, ?_, ?_⟩
  · intro h
    simp [add_async_shot_count, h]
  · intro n hn
    unfold add_async_shot_count at hn
    split at hn
    · rename_i hv
      obtain ⟨m, hm, h5, h100⟩ := validate_true_shot_range s g ns hv
      rw [hm] at hn
      injection hn with e
      subst e
      exact ⟨h5, h100⟩
    · simp at hn

/-- Witness for C10 at `stateID = gateID = 1` with `numShots = 50`
(accepted) and `numShots = 3` (rejected). -/
theorem C10_witness :
    ((validate_simulation_data (PyVal.int 1) (PyVal.int 1)
        (PyVal.int 50)).1 = true ∧
     ∃ n, pyInt (PyVal.int 50) = some n ∧ 5 ≤ n ∧ n ≤ 100) ∧
    ((validate_simulation_data (PyVal.int 1) (PyVal.int 1)
        (PyVal.int 3)).1 = false ∧
     add_async_shot_count (PyVal.int 1) (PyVal.int 1) (PyVal.int 3) =
       Option.none) ∧
    (add_async_shot_count (PyVal.int 1) (PyVal.int 1) (PyVal.int 50) =
       some 50 ∧ 5 ≤ (50 : ℤ) ∧ (50 : ℤ) ≤ 100) :=
  ⟨⟨by decide,
    (C10_shot_count_bounds (PyVal.int 1) (PyVal.int 1) (PyVal.int 50)).1
      (by decide)⟩,
   ⟨by decide,
    (C10_shot_count_bounds (PyVal.int 1) (PyVal.int 1) (PyVal.int 3)).2.1
      (by decide)⟩,
   ⟨by decide,
    (C10_shot_count_bounds (PyVal.int 1) (PyVal.int 1) (PyVal.int 50)).2.2 50
      (by decide)⟩⟩

end QSim
